import Mathlib

/-!
Shallow embedding of the multifluid model core of teqp
(`src/include/teqp/models/multifluid.hpp`).

Conventions of the embedding:
* C++ `double` scalars inside parsed parameter records are modelled as `ℚ`
  (exact rationals), so that term construction and binary-parameter
  resolution are fully executable and decidable.
* The generic numeric scalar type of the evaluation engine (plain reals or
  AD numbers) is modelled as an arbitrary field `K`; `sqrt`/`cbrt`, which the
  engine requires of its scalar type, are passed as explicit functions.
* A `throw std::invalid_argument(msg)` is modelled as `Except.error msg`.
* A JSON field that may be absent is an `Option`; a null json array and an
  empty json array both have size 0, matching nlohmann `.empty()`/`.size()`.
-/

namespace Teqp

/-- Modelled from the spec: `toeig` (from `teqp/types.hpp`, not under `src/`)
converts a json numeric array to a coefficient array; a missing (null) field
iterates as the empty array. On our `Option (List ℚ)` fields it is `getD []`. -/
def getArr (v : Option (List ℚ)) : List ℚ :=
  v.getD []

/-- Size of a json array field: 0 when the field is absent (null), matching
nlohmann `size()`. -/
def jlen (v : Option (List ℚ)) : ℕ :=
  (getArr v).length

/-- nlohmann `empty()`: true for a null (absent) field and for `[]`. -/
def jIsEmpty (v : Option (List ℚ)) : Bool :=
  (getArr v).isEmpty

/-- Modelled from the spec: `all_same_length` (from `teqp/types.hpp`, not under
`src/`) checks that the named coefficient arrays of a record all have an
identical length (a missing field counting as length 0). -/
def allSameLength (ns : List ℕ) : Bool :=
  match ns with
  | [] => true
  | x :: rest => rest.all (fun y => y == x)

/-- C++ `static_cast<int>` on a double truncates toward zero; on a rational
this is T-division of numerator by denominator. -/
def truncInt (q : ℚ) : ℤ :=
  q.num / (q.den : ℤ)

/-- The elementwise check `((l_i.cast<double>() - l).cwiseAbs() > 0.0).any()`
fails exactly when casting `l` to integers and back reproduces `l`. -/
def castBack (l : List ℚ) : List ℚ :=
  l.map (fun q => ((truncInt q : ℤ) : ℚ))

/-- One structured term sub-record (parsed json), with the coefficient-array
fields the builders of `multifluid.hpp` read. Absent fields are `none`. -/
structure TermRecord where
  type : Option String := none
  Name : Option String := none
  n : Option (List ℚ) := none
  t : Option (List ℚ) := none
  d : Option (List ℚ) := none
  l : Option (List ℚ) := none
  g : Option (List ℚ) := none
  m : Option (List ℚ) := none
  eta : Option (List ℚ) := none
  beta : Option (List ℚ) := none
  gamma : Option (List ℚ) := none
  epsilon : Option (List ℚ) := none
  b : Option (List ℚ) := none
  A : Option (List ℚ) := none
  B : Option (List ℚ) := none
  C : Option (List ℚ) := none
  D : Option (List ℚ) := none
  a : Option (List ℚ) := none
  Npower : Option ℤ := none
deriving DecidableEq, Repr

/-- The closed set of constructed term-evaluator objects, with the coefficient
arrays each variant of `multifluid_eosterms.hpp` stores. -/
inductive EOSTermQ where
  | power (n t d c l : List ℚ) (l_i : List ℤ)
  | gaussian (n t d eta beta gamma epsilon : List ℚ)
  | gerg2004 (n t d eta beta gamma epsilon : List ℚ)
  | lemmon2005 (n t d m l : List ℚ) (l_i : List ℤ)
  | exponential (n t d g l : List ℚ) (l_i : List ℤ)
  | gaoB (n t d eta beta gamma epsilon b : List ℚ)
  | nonanalytic (n A B C D a b beta : List ℚ)
  | null
deriving DecidableEq, Repr

/-- Conversion of a json scalar field to `int`: throws on a null field. -/
def getInt (v : Option ℤ) : Except String ℤ :=
  match v with
  | some z => Except.ok z
  | none => Except.error "type must be number, but is null"

/-- `get_EOS_terms`-scope `build_power` (multifluid.hpp lines 538-581): builds a
Power term. `eigorzero` substitutes zeros of length `n.size()` for an
empty/missing field. Note: this builder performs NO length validation; its only
error is the non-integer check on `l`. -/
def build_power (term : TermRecord) : Except String EOSTermQ :=
  let N := jlen term.n
  let eigorzero : Option (List ℚ) → List ℚ := fun v =>
    if ¬ jIsEmpty v then getArr v else List.replicate N 0
  let n := eigorzero term.n
  let t := eigorzero term.t
  let d := eigorzero term.d
  let l : List ℚ :=
    if jIsEmpty term.l then List.replicate N 0 else getArr term.l
  let c : List ℚ :=
    if jIsEmpty term.l then List.replicate N 0
    else (List.range N).map (fun i => if 0 < l.getD i 0 then 1 else 0)
  let l_i : List ℤ := l.map truncInt
  if ¬ (castBack l = l) then
    Except.error "Non-integer entry in l found"
  else
    Except.ok (.power n t d c l l_i)

/-- `build_Lemmon2005` (multifluid.hpp lines 583-598): length check over
`n,t,d,m,l`, then the non-integer check on `l`. -/
def build_Lemmon2005 (term : TermRecord) : Except String EOSTermQ :=
  let n := getArr term.n
  let t := getArr term.t
  let d := getArr term.d
  let m := getArr term.m
  let l := getArr term.l
  let l_i : List ℤ := l.map truncInt
  if ¬ allSameLength [jlen term.n, jlen term.t, jlen term.d, jlen term.m, jlen term.l] then
    Except.error "Lengths are not all identical in Lemmon2005 term"
  else if ¬ (castBack l = l) then
    Except.error "Non-integer entry in l found"
  else
    Except.ok (.lemmon2005 n t d m l l_i)

/-- `build_gaussian` (multifluid.hpp lines 600-613): length check over the
seven Gaussian arrays; no other validation. -/
def build_gaussian (term : TermRecord) : Except String EOSTermQ :=
  let n := getArr term.n
  let t := getArr term.t
  let d := getArr term.d
  let eta := getArr term.eta
  let beta := getArr term.beta
  let gamma := getArr term.gamma
  let epsilon := getArr term.epsilon
  if ¬ allSameLength [jlen term.n, jlen term.t, jlen term.d, jlen term.eta,
      jlen term.beta, jlen term.gamma, jlen term.epsilon] then
    Except.error "Lengths are not all identical in Gaussian term"
  else
    Except.ok (.gaussian n t d eta beta gamma epsilon)

/-- `build_exponential` (multifluid.hpp lines 615-627): length check over
`n,t,d,g,l`; note there is NO non-integer check on `l` here — it is cast
silently. -/
def build_exponential (term : TermRecord) : Except String EOSTermQ :=
  let n := getArr term.n
  let t := getArr term.t
  let d := getArr term.d
  let g := getArr term.g
  let l := getArr term.l
  let l_i : List ℤ := l.map truncInt
  if ¬ allSameLength [jlen term.n, jlen term.t, jlen term.d, jlen term.g, jlen term.l] then
    Except.error "Lengths are not all identical in exponential term"
  else
    Except.ok (.exponential n t d g l l_i)

/-- `build_GaoB` (multifluid.hpp lines 629-643): the stored `eta` is the
negation of the input; length check over the eight arrays. -/
def build_GaoB (term : TermRecord) : Except String EOSTermQ :=
  let n := getArr term.n
  let t := getArr term.t
  let d := getArr term.d
  let eta := (getArr term.eta).map Neg.neg
  let beta := getArr term.beta
  let gamma := getArr term.gamma
  let epsilon := getArr term.epsilon
  let b := getArr term.b
  if ¬ allSameLength [jlen term.n, jlen term.t, jlen term.d, jlen term.eta,
      jlen term.beta, jlen term.gamma, jlen term.epsilon, jlen term.b] then
    Except.error "Lengths are not all identical in GaoB term"
  else
    Except.ok (.gaoB n t d eta beta gamma epsilon b)

/-- `build_na` (multifluid.hpp lines 646-660): non-analytic term, length check
over the eight shape arrays. -/
def build_na (term : TermRecord) : Except String EOSTermQ :=
  let n := getArr term.n
  let A := getArr term.A
  let B := getArr term.B
  let C := getArr term.C
  let D := getArr term.D
  let a := getArr term.a
  let b := getArr term.b
  let beta := getArr term.beta
  if ¬ allSameLength [jlen term.n, jlen term.A, jlen term.B, jlen term.C,
      jlen term.D, jlen term.a, jlen term.b, jlen term.beta] then
    Except.error "Lengths are not all identical in nonanalytic term"
  else
    Except.ok (.nonanalytic n A B C D a b beta)

/-- `build_departure_function`-scope `build_power` (multifluid.hpp lines
336-385): like the pure-fluid builder but WITH length validation — `n,t,d`
when `l` is empty, `n,t,d,l` when `l` is present. -/
def build_power_departure (term : TermRecord) : Except String EOSTermQ :=
  let N := jlen term.n
  let eigorzero : Option (List ℚ) → List ℚ := fun v =>
    if ¬ jIsEmpty v then getArr v else List.replicate N 0
  let n := eigorzero term.n
  let t := eigorzero term.t
  let d := eigorzero term.d
  if jIsEmpty term.l then
    if ¬ allSameLength [jlen term.n, jlen term.t, jlen term.d] then
      Except.error "Lengths are not all identical in polynomial term"
    else
      let l : List ℚ := List.replicate N 0
      let c : List ℚ := List.replicate N 0
      if ¬ (castBack l = l) then
        Except.error "Non-integer entry in l found"
      else
        Except.ok (.power n t d c l (l.map truncInt))
  else
    if ¬ allSameLength [jlen term.n, jlen term.t, jlen term.d, jlen term.l] then
      Except.error "Lengths are not all identical in exponential term"
    else
      let l : List ℚ := getArr term.l
      let c : List ℚ :=
        (List.range N).map (fun i => if 0 < l.getD i 0 then 1 else 0)
      if ¬ (castBack l = l) then
        Except.error "Non-integer entry in l found"
      else
        Except.ok (.power n t d c l (l.map truncInt))

/-- `build_GERG2004` (multifluid.hpp lines 401-431): validates the seven
Gaussian-family array lengths (NOT `l`), reads `Npower`, splits each array at
`Npower` into a Power head sub-term and a GERG2004 tail sub-term. The head's
`l` is silently truncated to integers — there is NO non-integer check here.
Eigen `head(m)`/`tail(m)` become `take`/`drop`. -/
def build_GERG2004 (term : TermRecord) : Except String (List EOSTermQ) :=
  if ¬ allSameLength [jlen term.n, jlen term.t, jlen term.d, jlen term.eta,
      jlen term.beta, jlen term.gamma, jlen term.epsilon] then
    Except.error "Lengths are not all identical in GERG term"
  else do
    let Npower ← getInt term.Npower
    let Np := Npower.toNat
    let nfull := getArr term.n
    let NGERG := nfull.length - Np
    let l : List ℚ :=
      match term.l with
      | some larr => larr.take Np
      | none => (nfull.take Np).map (fun _ => 0)
    let c : List ℚ := l.map (fun q => if 0 < q then 1 else 0)
    let headterm : EOSTermQ :=
      .power (nfull.take Np) ((getArr term.t).take Np) ((getArr term.d).take Np)
        c l (l.map truncInt)
    let tailterm : EOSTermQ :=
      .gerg2004 (nfull.drop (nfull.length - NGERG))
        ((getArr term.t).drop (jlen term.t - NGERG))
        ((getArr term.d).drop (jlen term.d - NGERG))
        ((getArr term.eta).drop (jlen term.eta - NGERG))
        ((getArr term.beta).drop (jlen term.beta - NGERG))
        ((getArr term.gamma).drop (jlen term.gamma - NGERG))
        ((getArr term.epsilon).drop (jlen term.epsilon - NGERG))
    Except.ok [headterm, tailterm]

/-- `build_GaussianExponential` (multifluid.hpp lines 432-462): identical split
logic to `build_GERG2004` but the tail is a Gaussian sub-term. -/
def build_GaussianExponential (term : TermRecord) : Except String (List EOSTermQ) :=
  if ¬ allSameLength [jlen term.n, jlen term.t, jlen term.d, jlen term.eta,
      jlen term.beta, jlen term.gamma, jlen term.epsilon] then
    Except.error "Lengths are not all identical in Gaussian+Exponential term"
  else do
    let Npower ← getInt term.Npower
    let Np := Npower.toNat
    let nfull := getArr term.n
    let NGauss := nfull.length - Np
    let l : List ℚ :=
      match term.l with
      | some larr => larr.take Np
      | none => (nfull.take Np).map (fun _ => 0)
    let c : List ℚ := l.map (fun q => if 0 < q then 1 else 0)
    let headterm : EOSTermQ :=
      .power (nfull.take Np) ((getArr term.t).take Np) ((getArr term.d).take Np)
        c l (l.map truncInt)
    let tailterm : EOSTermQ :=
      .gaussian (nfull.drop (nfull.length - NGauss))
        ((getArr term.t).drop (jlen term.t - NGauss))
        ((getArr term.d).drop (jlen term.d - NGauss))
        ((getArr term.eta).drop (jlen term.eta - NGauss))
        ((getArr term.beta).drop (jlen term.beta - NGauss))
        ((getArr term.gamma).drop (jlen term.gamma - NGauss))
        ((getArr term.epsilon).drop (jlen term.epsilon - NGauss))
    Except.ok [headterm, tailterm]

/-- Conversion of a json scalar field to `std::string`: throws on null. -/
def getStr (v : Option String) : Except String String :=
  match v with
  | some s => Except.ok s
  | none => Except.error "type must be string, but is null"

/-- `build_departure_function` (multifluid.hpp lines 335-482): dispatch on the
`type` tag; the resulting departure term collection is the ordered list of
terms added. Unknown tags are an error naming the tag. -/
def build_departure_function (j : TermRecord) : Except String (List EOSTermQ) := do
  let type ← getStr j.type
  if type = "Exponential" then do
    let e ← build_power_departure j
    Except.ok [e]
  else if type = "GERG-2004" ∨ type = "GERG-2008" then
    build_GERG2004 j
  else if type = "Gaussian+Exponential" then
    build_GaussianExponential j
  else if type = "none" then
    Except.ok [.null]
  else
    Except.error ("Bad departure term type: " ++ type)

/-- One pairwise-parameter catalog record (or a value returned by
`get_BIPdep`), as a json object: every field may be absent. -/
structure BIPEntry where
  Name1 : Option String := none
  Name2 : Option String := none
  betaT : Option ℚ := none
  gammaT : Option ℚ := none
  betaV : Option ℚ := none
  gammaV : Option ℚ := none
  F : Option ℚ := none
  function : Option String := none
deriving DecidableEq, Repr

/-- nlohmann `empty()` on a json object: no keys at all. -/
def BIPEntry.jempty (el : BIPEntry) : Bool :=
  el = { }

/-- Conversion of a json scalar field to `double`: throws on null. -/
def getNum (v : Option ℚ) : Except String ℚ :=
  match v with
  | some q => Except.ok q
  | none => Except.error "type must be number, but is null"

/-- The identity-default record returned by `get_BIPdep` when the `estimate`
flag is present. -/
def estimate_default : BIPEntry :=
  { betaT := some 1, gammaT := some 1, betaV := some 1, gammaV := some 1, F := some 0 }

/-- The `toupper` lambda of `get_BIPdep` (multifluid.hpp line 202): upper-case
every character of the string. -/
def toupper (s : String) : String :=
  ⟨s.data.map Char.toUpper⟩

/-- The matching loop of `get_BIPdep` (multifluid.hpp lines 206-216):
`comp0`/`comp1` are already upper-cased; each record's stored names are
upper-cased and compared in both orders; reaching the end of the collection
throws. -/
def bip_lookup (comp0 comp1 : String) : List BIPEntry → Except String BIPEntry
  | [] => Except.error "Can\x27t match this binary pair"
  | el :: rest =>
    match el.Name1, el.Name2 with
    | some s1, some s2 =>
      let name1 := toupper s1
      let name2 := toupper s2
      if comp0 = name1 ∧ comp1 = name2 then Except.ok el
      else if comp0 = name2 ∧ comp1 = name1 then Except.ok el
      else bip_lookup comp0 comp1 rest
    | _, _ => Except.error "type must be string, but is null"

/-- `MultiFluidReducingFunction::get_BIPdep` (multifluid.hpp lines 193-217):
if the flags object contains the key `estimate`, return the identity default
immediately; otherwise match the (upper-cased) component pair against the
catalog in either order. The flags object is modelled by its list of keys. -/
def get_BIPdep (collection : List BIPEntry) (comp0 comp1 : String)
    (flags : List String) : Except String BIPEntry :=
  if flags.contains "estimate" then
    Except.ok estimate_default
  else
    bip_lookup (toupper comp0) (toupper comp1) collection

/-- `MultiFluidReducingFunction::get_binary_interaction_double` (multifluid.hpp
lines 218-228): resolve the record, read the four scalars, and flip the beta
values when the supplied names equal the stored names in backwards order —
note this comparison is case-SENSITIVE, unlike the matching. -/
def get_binary_interaction_double (collection : List BIPEntry)
    (comp0 comp1 : String) (flags : List String) :
    Except String (ℚ × ℚ × ℚ × ℚ) := do
  let el ← get_BIPdep collection comp0 comp1 flags
  let betaT ← getNum el.betaT
  let gammaT ← getNum el.gammaT
  let betaV ← getNum el.betaV
  let gammaV ← getNum el.gammaV
  if el.Name2 = some comp0 ∧ el.Name1 = some comp1 then
    Except.ok (1 / betaT, gammaT, 1 / betaV, gammaV)
  else
    Except.ok (betaT, gammaT, betaV, gammaV)

/-- One entry of the four matrices of
`MultiFluidReducingFunction::get_BIP_matrices` (multifluid.hpp lines 229-246):
the loop fills, for `i < j`, entry `(i,j)` with the resolved tuple and entry
`(j,i)` with reciprocal betas and equal gammas; the diagonal stays zero. -/
def bip_matrices_entry (collection : List BIPEntry) (components : List String)
    (flags : List String) (i j : ℕ) : Except String (ℚ × ℚ × ℚ × ℚ) :=
  if i = j then Except.ok (0, 0, 0, 0)
  else if i < j then
    get_binary_interaction_double collection (components.getD i "") (components.getD j "") flags
  else do
    let (betaT, gammaT, betaV, gammaV) ←
      get_binary_interaction_double collection (components.getD j "") (components.getD i "") flags
    Except.ok (1 / betaT, gammaT, 1 / betaV, gammaV)

/-- `get_BIP_matrices` as the four row-major matrices of entries. -/
def get_BIP_matrices (collection : List BIPEntry) (components : List String)
    (flags : List String) :
    Except String (List (List ℚ) × List (List ℚ) × List (List ℚ) × List (List ℚ)) := do
  let N := components.length
  let M ← (List.range N).mapM (fun i => (List.range N).mapM (fun j =>
    bip_matrices_entry collection components flags i j))
  Except.ok (M.map (fun row => row.map (fun e => e.1)),
    M.map (fun row => row.map (fun e => e.2.1)),
    M.map (fun row => row.map (fun e => e.2.2.1)),
    M.map (fun row => row.map (fun e => e.2.2.2)))

/-- One entry of `MultiFluidReducingFunction::get_F_matrix` (multifluid.hpp
lines 267-285): diagonal is 0; an off-diagonal entry resolves the pair (in
index order `min, max` — the loop only visits `i < j` and mirrors) and reads
its `F` field, or 0 for an empty record. -/
def F_matrix_entry (collection : List BIPEntry) (components : List String)
    (flags : List String) (i j : ℕ) : Except String ℚ :=
  if i = j then Except.ok 0
  else do
    let el ← get_BIPdep collection (components.getD (min i j) "")
      (components.getD (max i j) "") flags
    if el.jempty then Except.ok 0
    else getNum el.F

/-- `get_F_matrix` as a row-major matrix of entries. -/
def get_F_matrix (collection : List BIPEntry) (components : List String)
    (flags : List String) : Except String (List (List ℚ)) :=
  (List.range components.length).mapM (fun i =>
    (List.range components.length).mapM (fun j =>
      F_matrix_entry collection components flags i j))

/-- The departure-function catalog lookup `get_departure_json` (multifluid.hpp
lines 491-496): first record whose `Name` equals the requested name. -/
def get_departure_json (depcollection : List TermRecord) (Name : String) :
    Except String TermRecord :=
  match depcollection with
  | [] => Except.error "Bad argument"
  | el :: rest =>
    if el.Name = some Name then Except.ok el
    else get_departure_json rest Name

/-- One entry of `get_departure_function_matrix` (multifluid.hpp lines
484-514): the diagonal keeps the default-constructed (empty) collection; an
off-diagonal entry resolves the pair's record, and when its stored
departure-function name is absent or empty the entry is the Null term,
otherwise the named departure function is built. -/
def departure_matrix_entry (depcollection : List TermRecord)
    (BIPcollection : List BIPEntry) (components : List String)
    (flags : List String) (i j : ℕ) : Except String (List EOSTermQ) :=
  if i = j then Except.ok []
  else do
    let BIP ← get_BIPdep BIPcollection (components.getD (min i j) "")
      (components.getD (max i j) "") flags
    let funcname : String :=
      match BIP.function with
      | some s => s
      | none => ""
    if funcname ≠ "" then do
      let jj ← get_departure_json depcollection funcname
      build_departure_function jj
    else
      Except.ok [.null]

/-- `get_departure_function_matrix` as a row-major matrix of entries. -/
def get_departure_function_matrix (depcollection : List TermRecord)
    (BIPcollection : List BIPEntry) (components : List String)
    (flags : List String) : Except String (List (List (List EOSTermQ))) :=
  (List.range components.length).mapM (fun i =>
    (List.range components.length).mapM (fun j =>
      departure_matrix_entry depcollection BIPcollection components flags i j))

/-! ## The numeric evaluation engine

The engine is templated over the numeric scalar type; we model that scalar as
an arbitrary field `K`, with `sqrt`/`cbrt` (required of the scalar by the
engine) passed as explicit functions where the source calls them. -/

/-- Modelled from the spec: `forceeval` (from `teqp/types.hpp`, not under
`src/`) collapses a lazy expression-template value to a concrete value; on an
already-concrete scalar it is the identity. -/
def forceeval {K : Type} (x : K) : K := x

/-- `MultiFluidReducingFunction::square`. -/
def square {K : Type} [Field K] (x : K) : K := x * x

/-- `MultiFluidReducingFunction::cube`. -/
def cube {K : Type} [Field K] (x : K) : K := x * x * x

/-- `MultiFluidReducingFunction::Y` (multifluid.hpp lines 174-191): with
`N = z.size()`, `sum1` over `i < N` of `square(z[i])*Yc[i]`, and `sum2` over
`i < N-1`, `i < j < N` of `2*z[i]*z[j]*(z[i]+z[j])/(square(beta(i,j))*z[i]+z[j])*Yij(i,j)`. -/
def Yfun {K : Type} [Field K] (z : List K) (Yc : List K)
    (beta Yij : ℕ → ℕ → K) : K :=
  let N := z.length
  (∑ i in Finset.range N, square (z.getD i 0) * Yc.getD i 0) +
  (∑ i in Finset.range (N - 1), ∑ j in Finset.Ico (i + 1) N,
    2 * z.getD i 0 * z.getD j 0 * (z.getD i 0 + z.getD j 0) /
      (square (beta i j) * z.getD i 0 + z.getD j 0) * Yij i j)

/-- The state of a constructed `MultiFluidReducingFunction`: the four binary
parameter matrices, the critical-property vectors, and the precomputed
`YT`/`Yv` matrices. Matrices are index functions. -/
structure MFRed (K : Type) where
  betaT : ℕ → ℕ → K
  gammaT : ℕ → ℕ → K
  betaV : ℕ → ℕ → K
  gammaV : ℕ → ℕ → K
  Tc : List K
  vc : List K
  YT : ℕ → ℕ → K
  Yv : ℕ → ℕ → K

/-- The `MultiFluidReducingFunction` constructor (multifluid.hpp lines
153-172): `YT`/`Yv` start at zero and are filled for every off-diagonal pair
`(i,j)`, `i,j < N = Tc.size()`, with
`YT(i,j) = betaT(i,j)*gammaT(i,j)*sqrt(Tc[i]*Tc[j])` and
`Yv(i,j) = 1/8*betaV(i,j)*gammaV(i,j)*cube(cbrt(vc[i])+cbrt(vc[j]))`
(the loop writes `(i,j)` and `(j,i)` for `i < j`; `sqrt(Tc[i]*Tc[j])` and the
cube-mean are symmetric in `i,j`, so one guarded formula covers both). -/
def mkMFRed {K : Type} [Field K] (sqrt cbrt : K → K)
    (betaT gammaT betaV gammaV : ℕ → ℕ → K) (Tc vc : List K) : MFRed K :=
  let N := Tc.length
  { betaT := betaT, gammaT := gammaT, betaV := betaV, gammaV := gammaV,
    Tc := Tc, vc := vc,
    YT := fun i j =>
      if i < N ∧ j < N ∧ i ≠ j then
        betaT i j * gammaT i j * sqrt (Tc.getD i 0 * Tc.getD j 0)
      else 0,
    Yv := fun i j =>
      if i < N ∧ j < N ∧ i ≠ j then
        1 / 8 * betaV i j * gammaV i j * cube (cbrt (vc.getD i 0) + cbrt (vc.getD j 0))
      else 0 }

/-- `MultiFluidReducingFunction::get_Tr` (multifluid.hpp line 286). -/
def MFRed.get_Tr {K : Type} [Field K] (r : MFRed K) (molefracs : List K) : K :=
  Yfun molefracs r.Tc r.betaT r.YT

/-- `MultiFluidReducingFunction::get_rhor` (multifluid.hpp line 287). -/
def MFRed.get_rhor {K : Type} [Field K] (r : MFRed K) (molefracs : List K) : K :=
  1 / Yfun molefracs r.vc r.betaV r.Yv

/-- `CorrespondingStatesContribution::alphar` (multifluid.hpp lines 44-53):
mole-fraction-weighted sum of the pure-component EOS evaluations, loop over
`molefracs.size()`. A component EOS is modelled by its evaluation function
`alphar(tau, delta)`. -/
def CorrespondingStates_alphar {K : Type} [Field K] (EOSs : List (K → K → K))
    (tau delta : K) (molefracs : List K) : K :=
  ∑ i in Finset.range molefracs.length,
    molefracs.getD i 0 * (EOSs.getD i (fun _ _ => 0)) tau delta

/-- `DepartureContribution::alphar` (multifluid.hpp lines 75-86): strictly
upper-triangular double loop over `molefracs.size()`. -/
def Departure_alphar {K : Type} [Field K] (F : ℕ → ℕ → K)
    (funcs : ℕ → ℕ → K → K → K) (tau delta : K) (molefracs : List K) : K :=
  ∑ i in Finset.range molefracs.length,
    ∑ j in Finset.Ico (i + 1) molefracs.length,
      molefracs.getD i 0 * molefracs.getD j 0 * F i j * funcs i j tau delta

/-- A `MultiFluid` model over a generic reducing function (the class template;
the reducing function is anything exposing `get_Tr`/`get_rhor`). -/
structure MultiFluid (K : Type) where
  Tr : List K → K
  rhor : List K → K
  EOSs : List (K → K → K)
  F : ℕ → ℕ → K
  funcs : ℕ → ℕ → K → K → K

/-- `MultiFluid::alphar(T, rho, molefrac)` (multifluid.hpp lines 121-132). -/
def MultiFluid.alphar {K : Type} [Field K] (model : MultiFluid K)
    (T rho : K) (molefrac : List K) : K :=
  let Tred := forceeval (model.Tr molefrac)
  let rhored := forceeval (model.rhor molefrac)
  let delta := forceeval (rho / rhored)
  let tau := forceeval (Tred / T)
  forceeval (CorrespondingStates_alphar model.EOSs tau delta molefrac +
    Departure_alphar model.F model.funcs tau delta molefrac)

/-- `MultiFluid::alphar(T, rhovec, rhotot)` (multifluid.hpp lines 111-119):
the total density is the override when supplied, otherwise
`std::accumulate` over the component densities; mole fractions are the
component densities divided by it. -/
def MultiFluid.alphar_rhovec {K : Type} [Field K] (model : MultiFluid K)
    (T : K) (rhovec : List K) (rhotot : Option K) : K :=
  let rhotot_ : K :=
    match rhotot with
    | some v => v
    | none => rhovec.foldl (fun acc x => acc + x) 0
  let molefrac := rhovec.map (fun rho => rho / rhotot_)
  model.alphar T rhotot_ molefrac

/-- A `MultiFluid` model whose reducing function is a concrete
`MultiFluidReducingFunction` (the configuration `build_multifluid_model`
produces and `build_multifluid_mutant` consumes). -/
structure MultiFluidMF (K : Type) where
  red : MFRed K
  EOSs : List (K → K → K)
  F : ℕ → ℕ → K
  funcs : ℕ → ℕ → K → K → K

/-- `MultiFluid::alphar(T, rho, molefrac)` for a `MultiFluidMF`. -/
def MultiFluidMF.alphar {K : Type} [Field K] (model : MultiFluidMF K)
    (T rho : K) (molefrac : List K) : K :=
  let Tred := forceeval (model.red.get_Tr molefrac)
  let rhored := forceeval (model.red.get_rhor molefrac)
  let delta := forceeval (rho / rhored)
  let tau := forceeval (Tred / T)
  forceeval (CorrespondingStates_alphar model.EOSs tau delta molefrac +
    Departure_alphar model.F model.funcs tau delta molefrac)

/-- `MultiFluidAdapter` (multifluid.hpp lines 725-758): holds the donor model
(for the corresponding-states portion) plus its own reducing and departure
functions. -/
structure MultiFluidAdapter (K : Type) where
  base : MultiFluidMF K
  red : MFRed K
  F : ℕ → ℕ → K
  funcs : ℕ → ℕ → K → K → K

/-- `MultiFluidAdapter::alphar` (multifluid.hpp lines 746-757): reducing
variables from the adapter's own reducing function, corresponding-states term
from `base.corr`, departure term from the adapter's own departure function. -/
def MultiFluidAdapter.alphar {K : Type} [Field K] (a : MultiFluidAdapter K)
    (T rho : K) (molefrac : List K) : K :=
  let Tred := forceeval (a.red.get_Tr molefrac)
  let rhored := forceeval (a.red.get_rhor molefrac)
  let delta := forceeval (rho / rhored)
  let tau := forceeval (Tred / T)
  forceeval (CorrespondingStates_alphar a.base.EOSs tau delta molefrac +
    Departure_alphar a.F a.funcs tau delta molefrac)

/-- The override document consumed by `build_multifluid_mutant`, with every
off-diagonal pair `(i,j)`, `i < j`, covered: the nested `BIP` block supplies
the four reducing parameters and `Fij`, and the nested `departure` block is
modelled by the departure term collection it builds, represented by its
evaluation function `alphar(tau, delta)`. -/
structure MutantOverride (K : Type) where
  betaT : ℕ → ℕ → K
  gammaT : ℕ → ℕ → K
  betaV : ℕ → ℕ → K
  gammaV : ℕ → ℕ → K
  Fij : ℕ → ℕ → K
  dep : ℕ → ℕ → K → K → K

/-- `build_multifluid_mutant` (multifluid.hpp lines 760-808). The copies of
the base matrices are updated for every pair `i < j < N`:
`betaT(i,j) = override`, but `betaT(j,i) = 1/red.betaT(i,j)` — the reciprocal
of the BASE entry, not of the just-written override (same for `betaV`), while
`gammaT(j,i)`/`gammaV(j,i)` mirror the new values. `F` starts at zero and gets
`Fij` symmetrically; diagonal departure entries hold the Null term (which,
like the default-constructed collection, evaluates to 0). -/
def build_multifluid_mutant {K : Type} [Field K] (sqrt cbrt : K → K)
    (model : MultiFluidMF K) (jj : MutantOverride K) : MultiFluidAdapter K :=
  let red := model.red
  let N := red.Tc.length
  let betaT : ℕ → ℕ → K := fun a b =>
    if a < b ∧ b < N then jj.betaT a b
    else if b < a ∧ a < N then 1 / red.betaT b a
    else red.betaT a b
  let gammaT : ℕ → ℕ → K := fun a b =>
    if a < b ∧ b < N then jj.gammaT a b
    else if b < a ∧ a < N then jj.gammaT b a
    else red.gammaT a b
  let betaV : ℕ → ℕ → K := fun a b =>
    if a < b ∧ b < N then jj.betaV a b
    else if b < a ∧ a < N then 1 / red.betaV b a
    else red.betaV a b
  let gammaV : ℕ → ℕ → K := fun a b =>
    if a < b ∧ b < N then jj.gammaV a b
    else if b < a ∧ a < N then jj.gammaV b a
    else red.gammaV a b
  let F : ℕ → ℕ → K := fun a b =>
    if a ≠ b ∧ a < N ∧ b < N then jj.Fij (min a b) (max a b) else 0
  let funcs : ℕ → ℕ → K → K → K := fun a b =>
    if a ≠ b ∧ a < N ∧ b < N then jj.dep (min a b) (max a b) else fun _ _ => 0
  { base := model,
    red := mkMFRed sqrt cbrt betaT gammaT betaV gammaV red.Tc red.vc,
    F := F,
    funcs := funcs }

/-- The single-component (pure) composition vector: mole fraction 1 at
component `i`, 0 elsewhere, for an `N`-component model. -/
def unitcomp (K : Type) [Field K] (N i : ℕ) : List K :=
  (List.range N).map (fun k => if k = i then 1 else 0)

/-! ## Helper lemmas -/

lemma filter_lt_range (N i : ℕ) :
    (Finset.range N).filter (fun j => i < j) = Finset.Ico (i + 1) N := by
  ext j
  simp [Finset.mem_filter, Finset.mem_range, Finset.mem_Ico]
  omega

/-- The strictly-upper-triangular nested loop is the sum over the ordered
pairs `i < j` of the index square. -/
lemma sum_triangle {M : Type} [AddCommMonoid M] (N : ℕ) (f : ℕ → ℕ → M) :
    (∑ i in Finset.range N, ∑ j in Finset.Ico (i + 1) N, f i j)
      = ∑ p in (Finset.range N ×ˢ Finset.range N).filter (fun p => p.1 < p.2),
          f p.1 p.2 := by
  rw [Finset.sum_filter, Finset.sum_product]
  refine Finset.sum_congr rfl fun i _ => ?_
  rw [← filter_lt_range N i, Finset.sum_filter]

/-- Running the outer loop only to `N-1` (as `MultiFluidReducingFunction::Y`
does) changes nothing: the last inner range is empty. -/
lemma sum_triangle_pred {M : Type} [AddCommMonoid M] (N : ℕ) (f : ℕ → ℕ → M) :
    (∑ i in Finset.range (N - 1), ∑ j in Finset.Ico (i + 1) N, f i j)
      = ∑ i in Finset.range N, ∑ j in Finset.Ico (i + 1) N, f i j := by
  apply Finset.sum_subset (Finset.range_subset.2 (Nat.sub_le N 1))
  intro i hi hni
  simp only [Finset.mem_range] at hi hni
  rw [Finset.Ico_eq_empty (by omega), Finset.sum_empty]

/-! ## C1 and C8: the MultiFluid evaluation -/

/-- C1: for every temperature `T`, density `rho` and mole-fraction vector `z`,
`MultiFluid::alphar(T, rho, z)` computes `tau = Tr(z)/T` and
`delta = rho/rhor(z)` from the reducing function and returns the sum of the
corresponding-states contribution `Σ_i z_i·EOS_i.alphar(tau, delta)` and the
departure contribution `Σ_{i<j} z_i·z_j·F(i,j)·funcs[i][j].alphar(tau, delta)`
over ordered pairs `i < j` (each unordered pair once). -/
theorem multifluid_alphar_eq_corr_plus_departure {K : Type} [Field K]
    (model : MultiFluid K) (T rho : K) (z : List K) :
    model.alphar T rho z =
      (∑ i in Finset.range z.length,
        z.getD i 0 * (model.EOSs.getD i (fun _ _ => 0)) (model.Tr z / T) (rho / model.rhor z)) +
      ∑ p in (Finset.range z.length ×ˢ Finset.range z.length).filter (fun p => p.1 < p.2),
        z.getD p.1 0 * z.getD p.2 0 * model.F p.1 p.2 *
          model.funcs p.1 p.2 (model.Tr z / T) (rho / model.rhor z) := by
  simp only [MultiFluid.alphar, forceeval, CorrespondingStates_alphar, Departure_alphar]
  rw [sum_triangle]

/-- C8: supplying the component-density vector with no total-density override
and supplying it with the override equal to the accumulated sum of its entries
produce identical results. -/
theorem alphar_rhovec_total_override_invariant {K : Type} [Field K]
    (model : MultiFluid K) (T : K) (rhovec : List K) :
    model.alphar_rhovec T rhovec (some (rhovec.foldl (fun acc x => acc + x) 0)) =
      model.alphar_rhovec T rhovec none := rfl

/-! ## C2: the asymmetric (GERG-style) reducing function -/

/-- `Y` reshaped to the spec's form: quadratic pure part plus a sum over the
ordered pairs `i < j`. -/
lemma Yfun_eq_triangle {K : Type} [Field K] (z Yc : List K) (beta Yij : ℕ → ℕ → K) :
    Yfun z Yc beta Yij =
      (∑ i in Finset.range z.length, (z.getD i 0) ^ 2 * Yc.getD i 0) +
      ∑ p in (Finset.range z.length ×ˢ Finset.range z.length).filter (fun p => p.1 < p.2),
        2 * (z.getD p.1 0 * z.getD p.2 0 * (z.getD p.1 0 + z.getD p.2 0) /
          ((beta p.1 p.2) ^ 2 * z.getD p.1 0 + z.getD p.2 0)) * Yij p.1 p.2 := by
  simp only [Yfun, square]
  rw [sum_triangle_pred, sum_triangle]
  congr 1
  · exact Finset.sum_congr rfl fun i _ => by ring
  · exact Finset.sum_congr rfl fun p _ => by ring

/-- C2: the asymmetric reducing function computes
`Y(z,Yc,β,Yij) = Σ_i z_i²·Yc_i + 2·Σ_{i<j} [z_i z_j (z_i+z_j)/(β(i,j)² z_i + z_j)]·Yij(i,j)`;
the reducing temperature is `Y` with `Yc = Tc`, `β = betaT` and precomputed
`YT(i,j) = betaT(i,j)·gammaT(i,j)·sqrt(Tc_i·Tc_j)`; the reducing density is
the reciprocal of `Y` with `vc`, `betaV` and
`Yv(i,j) = (1/8)·betaV(i,j)·gammaV(i,j)·(vc_i^(1/3)+vc_j^(1/3))³`. -/
theorem reducing_function_Y_Tr_rhor {K : Type} [Field K] (sqrt cbrt : K → K)
    (betaT gammaT betaV gammaV : ℕ → ℕ → K) (Tc vc : List K)
    (Yc : List K) (beta Yij : ℕ → ℕ → K) (z : List K)
    (hz : z.length = Tc.length) :
    (Yfun z Yc beta Yij =
      (∑ i in Finset.range z.length, (z.getD i 0) ^ 2 * Yc.getD i 0) +
      ∑ p in (Finset.range z.length ×ˢ Finset.range z.length).filter (fun p => p.1 < p.2),
        2 * (z.getD p.1 0 * z.getD p.2 0 * (z.getD p.1 0 + z.getD p.2 0) /
          ((beta p.1 p.2) ^ 2 * z.getD p.1 0 + z.getD p.2 0)) * Yij p.1 p.2) ∧
    ((mkMFRed sqrt cbrt betaT gammaT betaV gammaV Tc vc).get_Tr z =
      (∑ i in Finset.range z.length, (z.getD i 0) ^ 2 * Tc.getD i 0) +
      ∑ p in (Finset.range z.length ×ˢ Finset.range z.length).filter (fun p => p.1 < p.2),
        2 * (z.getD p.1 0 * z.getD p.2 0 * (z.getD p.1 0 + z.getD p.2 0) /
          ((betaT p.1 p.2) ^ 2 * z.getD p.1 0 + z.getD p.2 0)) *
          (betaT p.1 p.2 * gammaT p.1 p.2 * sqrt (Tc.getD p.1 0 * Tc.getD p.2 0))) ∧
    ((mkMFRed sqrt cbrt betaT gammaT betaV gammaV Tc vc).get_rhor z =
      1 / ((∑ i in Finset.range z.length, (z.getD i 0) ^ 2 * vc.getD i 0) +
      ∑ p in (Finset.range z.length ×ˢ Finset.range z.length).filter (fun p => p.1 < p.2),
        2 * (z.getD p.1 0 * z.getD p.2 0 * (z.getD p.1 0 + z.getD p.2 0) /
          ((betaV p.1 p.2) ^ 2 * z.getD p.1 0 + z.getD p.2 0)) *
          (1 / 8 * betaV p.1 p.2 * gammaV p.1 p.2 *
            (cbrt (vc.getD p.1 0) + cbrt (vc.getD p.2 0)) ^ 3))) := by
  refine ⟨Yfun_eq_triangle z Yc beta Yij, ?_, ?_⟩
  · simp only [MFRed.get_Tr, mkMFRed]
    rw [Yfun_eq_triangle]
    congr 1
    refine Finset.sum_congr rfl fun p hp => ?_
    simp only [Finset.mem_filter, Finset.mem_product, Finset.mem_range] at hp
    rw [if_pos ⟨by omega, by omega, by omega⟩]
  · simp only [MFRed.get_rhor, mkMFRed]
    rw [Yfun_eq_triangle]
    congr 2
    refine Finset.sum_congr rfl fun p hp => ?_
    simp only [Finset.mem_filter, Finset.mem_product, Finset.mem_range] at hp
    rw [if_pos ⟨by omega, by omega, by omega⟩]
    simp only [cube]
    ring

/-- Witness for C2: the reducing-function characterisation applied to a
concrete two-component configuration (scalar `ℚ`, `sqrt`/`cbrt` instantiated
with `id`). -/
theorem reducing_function_Y_Tr_rhor_witness :
    (Yfun [(1:ℚ)/2, 1/2] [1, 2] (fun _ _ => 1) (fun _ _ => 1) =
      (∑ i in Finset.range ([(1:ℚ)/2, 1/2] : List ℚ).length,
        (([(1:ℚ)/2, 1/2] : List ℚ).getD i 0) ^ 2 * ([(1:ℚ), 2] : List ℚ).getD i 0) +
      ∑ p in (Finset.range ([(1:ℚ)/2, 1/2] : List ℚ).length ×ˢ
          Finset.range ([(1:ℚ)/2, 1/2] : List ℚ).length).filter (fun p => p.1 < p.2),
        2 * (([(1:ℚ)/2, 1/2] : List ℚ).getD p.1 0 * ([(1:ℚ)/2, 1/2] : List ℚ).getD p.2 0 *
          (([(1:ℚ)/2, 1/2] : List ℚ).getD p.1 0 + ([(1:ℚ)/2, 1/2] : List ℚ).getD p.2 0) /
          (((1:ℚ)) ^ 2 * ([(1:ℚ)/2, 1/2] : List ℚ).getD p.1 0 +
            ([(1:ℚ)/2, 1/2] : List ℚ).getD p.2 0)) * 1) ∧
    ((mkMFRed id id (fun _ _ => 1) (fun _ _ => 1) (fun _ _ => 1) (fun _ _ => 1)
        [4, 9] [1, 8]).get_Tr [(1:ℚ)/2, 1/2] =
      (∑ i in Finset.range ([(1:ℚ)/2, 1/2] : List ℚ).length,
        (([(1:ℚ)/2, 1/2] : List ℚ).getD i 0) ^ 2 * ([(4:ℚ), 9] : List ℚ).getD i 0) +
      ∑ p in (Finset.range ([(1:ℚ)/2, 1/2] : List ℚ).length ×ˢ
          Finset.range ([(1:ℚ)/2, 1/2] : List ℚ).length).filter (fun p => p.1 < p.2),
        2 * (([(1:ℚ)/2, 1/2] : List ℚ).getD p.1 0 * ([(1:ℚ)/2, 1/2] : List ℚ).getD p.2 0 *
          (([(1:ℚ)/2, 1/2] : List ℚ).getD p.1 0 + ([(1:ℚ)/2, 1/2] : List ℚ).getD p.2 0) /
          (((1:ℚ)) ^ 2 * ([(1:ℚ)/2, 1/2] : List ℚ).getD p.1 0 +
            ([(1:ℚ)/2, 1/2] : List ℚ).getD p.2 0)) *
          (1 * 1 * id (([(4:ℚ), 9] : List ℚ).getD p.1 0 * ([(4:ℚ), 9] : List ℚ).getD p.2 0))) ∧
    ((mkMFRed id id (fun _ _ => 1) (fun _ _ => 1) (fun _ _ => 1) (fun _ _ => 1)
        [4, 9] [1, 8]).get_rhor [(1:ℚ)/2, 1/2] =
      1 / ((∑ i in Finset.range ([(1:ℚ)/2, 1/2] : List ℚ).length,
        (([(1:ℚ)/2, 1/2] : List ℚ).getD i 0) ^ 2 * ([(1:ℚ), 8] : List ℚ).getD i 0) +
      ∑ p in (Finset.range ([(1:ℚ)/2, 1/2] : List ℚ).length ×ˢ
          Finset.range ([(1:ℚ)/2, 1/2] : List ℚ).length).filter (fun p => p.1 < p.2),
        2 * (([(1:ℚ)/2, 1/2] : List ℚ).getD p.1 0 * ([(1:ℚ)/2, 1/2] : List ℚ).getD p.2 0 *
          (([(1:ℚ)/2, 1/2] : List ℚ).getD p.1 0 + ([(1:ℚ)/2, 1/2] : List ℚ).getD p.2 0) /
          (((1:ℚ)) ^ 2 * ([(1:ℚ)/2, 1/2] : List ℚ).getD p.1 0 +
            ([(1:ℚ)/2, 1/2] : List ℚ).getD p.2 0)) *
          (1 / 8 * 1 * 1 *
            (id (([(1:ℚ), 8] : List ℚ).getD p.1 0) + id (([(1:ℚ), 8] : List ℚ).getD p.2 0)) ^ 3))) :=
  reducing_function_Y_Tr_rhor id id (fun _ _ => 1) (fun _ _ => 1) (fun _ _ => 1)
    (fun _ _ => 1) [4, 9] [1, 8] [1, 2] (fun _ _ => 1) (fun _ _ => 1)
    [(1:ℚ)/2, 1/2] (by decide)

/-! ## C9: the model adapter preserves pure-component contributions -/

lemma unitcomp_length {K : Type} [Field K] (N i : ℕ) :
    (unitcomp K N i).length = N := by
  simp [unitcomp]

lemma unitcomp_getD {K : Type} [Field K] (N i k : ℕ) :
    (unitcomp K N i).getD k 0 = if k < N ∧ k = i then 1 else 0 := by
  unfold unitcomp
  rcases Nat.lt_or_ge k N with h | h
  · rw [List.getD_eq_getElem?_getD, List.getElem?_map, List.getElem?_range h]
    simp only [Option.map_some', Option.getD_some]
    by_cases hk : k = i
    · subst hk
      rw [if_pos rfl, if_pos ⟨h, rfl⟩]
    · rw [if_neg hk, if_neg (fun hh => hk hh.2)]
  · rw [List.getD_eq_getElem?_getD, List.getElem?_eq_none (by simpa using h)]
    rw [Option.getD_none, if_neg (fun hh => absurd hh.1 (Nat.not_lt.2 h))]

/-- At a pure composition the reducing sum collapses to the pure critical
property: the quadratic part picks component `i` and every cross term carries
the factor `z_i·z_j = 0`. -/
lemma Yfun_unitcomp {K : Type} [Field K] (N i : ℕ) (hi : i < N)
    (Yc : List K) (beta Yij : ℕ → ℕ → K) :
    Yfun (unitcomp K N i) Yc beta Yij = Yc.getD i 0 := by
  simp only [Yfun, unitcomp_length]
  have h1 : ∑ k in Finset.range N, square ((unitcomp K N i).getD k 0) * Yc.getD k 0
      = Yc.getD i 0 := by
    rw [Finset.sum_eq_single i]
    · rw [unitcomp_getD, if_pos ⟨hi, rfl⟩]
      simp [square]
    · intro k _ hk
      rw [unitcomp_getD, if_neg (fun h => hk h.2)]
      simp [square]
    · intro h
      exact absurd (Finset.mem_range.2 hi) h
  have h2 : ∑ k in Finset.range (N - 1), ∑ j in Finset.Ico (k + 1) N,
      2 * (unitcomp K N i).getD k 0 * (unitcomp K N i).getD j 0 *
        ((unitcomp K N i).getD k 0 + (unitcomp K N i).getD j 0) /
        (square (beta k j) * (unitcomp K N i).getD k 0 + (unitcomp K N i).getD j 0) *
        Yij k j = 0 := by
    refine Finset.sum_eq_zero fun k _ => Finset.sum_eq_zero fun j hj => ?_
    have hkj : k < j := Nat.lt_of_succ_le (Finset.mem_Ico.1 hj).1
    rcases eq_or_ne k i with rfl | hk
    · have hj0 : (unitcomp K N k).getD j 0 = 0 := by
        rw [unitcomp_getD, if_neg (fun h => absurd h.2 (by omega))]
      rw [hj0]
      simp
    · have hk0 : (unitcomp K N i).getD k 0 = 0 := by
        rw [unitcomp_getD, if_neg (fun h => hk h.2)]
      rw [hk0]
      simp
  rw [h1, h2, add_zero]

/-- At a pure composition the departure contribution vanishes: every summand
carries `z_i·z_j = 0` for `i < j`. -/
lemma Departure_alphar_unitcomp {K : Type} [Field K] (N i : ℕ)
    (F : ℕ → ℕ → K) (funcs : ℕ → ℕ → K → K → K) (tau delta : K) :
    Departure_alphar F funcs tau delta (unitcomp K N i) = 0 := by
  simp only [Departure_alphar, unitcomp_length]
  refine Finset.sum_eq_zero fun k _ => Finset.sum_eq_zero fun j hj => ?_
  have hkj : k < j := Nat.lt_of_succ_le (Finset.mem_Ico.1 hj).1
  rcases eq_or_ne k i with rfl | hk
  · have hj0 : (unitcomp K N k).getD j 0 = 0 := by
      rw [unitcomp_getD, if_neg (fun h => absurd h.2 (by omega))]
    rw [hj0]
    simp
  · have hk0 : (unitcomp K N i).getD k 0 = 0 := by
      rw [unitcomp_getD, if_neg (fun h => hk h.2)]
    rw [hk0]
    simp

/-- C9: a mutant built by `build_multifluid_mutant` from any base model and
any override document covering all off-diagonal pairs evaluates every
single-component (pure, corresponding-states-only) contribution identically
to the base model: at each pure composition `z = e_i` the reducing
temperature and density, the corresponding-states term (the adapter reuses
the base EOS collection), and hence the whole `alphar`, coincide with the
base model's, the departure contributions vanishing on both sides. -/
theorem mutant_preserves_pure_contributions {K : Type} [Field K]
    (sqrt cbrt : K → K) (model : MultiFluidMF K) (jj : MutantOverride K)
    (T rho : K) (i : ℕ) (hi : i < model.red.Tc.length) :
    (build_multifluid_mutant sqrt cbrt model jj).alphar T rho
        (unitcomp K model.red.Tc.length i) =
      model.alphar T rho (unitcomp K model.red.Tc.length i) := by
  have hbase : (build_multifluid_mutant sqrt cbrt model jj).base = model := by
    simp [build_multifluid_mutant]
  have hmutTc : (build_multifluid_mutant sqrt cbrt model jj).red.Tc = model.red.Tc := by
    simp [build_multifluid_mutant, mkMFRed]
  have hmutvc : (build_multifluid_mutant sqrt cbrt model jj).red.vc = model.red.vc := by
    simp [build_multifluid_mutant, mkMFRed]
  have hTr : (build_multifluid_mutant sqrt cbrt model jj).red.get_Tr
      (unitcomp K model.red.Tc.length i) = model.red.get_Tr (unitcomp K model.red.Tc.length i) := by
    simp only [MFRed.get_Tr, hmutTc]
    rw [Yfun_unitcomp _ _ hi, Yfun_unitcomp _ _ hi]
  have hrhor : (build_multifluid_mutant sqrt cbrt model jj).red.get_rhor
      (unitcomp K model.red.Tc.length i) = model.red.get_rhor (unitcomp K model.red.Tc.length i) := by
    simp only [MFRed.get_rhor, hmutvc]
    rw [Yfun_unitcomp _ _ hi, Yfun_unitcomp _ _ hi]
  simp only [MultiFluidAdapter.alphar, MultiFluidMF.alphar, forceeval, hbase, hTr, hrhor]
  rw [Departure_alphar_unitcomp, Departure_alphar_unitcomp]

/-- A concrete two-component base model over `ℚ` for the C9 witness. -/
def C9base : MultiFluidMF ℚ :=
  { red := mkMFRed id id (fun _ _ => 1) (fun _ _ => 1) (fun _ _ => 1) (fun _ _ => 1)
      [100, 200] [1, 2],
    EOSs := [fun tau delta => tau * delta, fun tau delta => tau + delta],
    F := fun _ _ => 1,
    funcs := fun _ _ => fun tau delta => tau * delta }

/-- A concrete override document for the C9 witness, changing every pairwise
parameter and the departure term. -/
def C9ovr : MutantOverride ℚ :=
  { betaT := fun _ _ => 2, gammaT := fun _ _ => 3, betaV := fun _ _ => 4,
    gammaV := fun _ _ => 5, Fij := fun _ _ => 6,
    dep := fun _ _ => fun tau delta => tau + delta }

/-- Witness for C9: the mutant of the concrete base model agrees with the base
at the pure composition of component 0. -/
theorem mutant_preserves_pure_contributions_witness :
    (build_multifluid_mutant id id C9base C9ovr).alphar 300 2
        (unitcomp ℚ C9base.red.Tc.length 0) =
      C9base.alphar 300 2 (unitcomp ℚ C9base.red.Tc.length 0) :=
  mutant_preserves_pure_contributions id id C9base C9ovr 300 2 0 (by decide)

/-! ## C3: reducing-function symmetry of constructed instances -/

/-- A concrete two-component base model whose reducing matrices are all 1
(so they satisfy the reciprocity invariant), used to exhibit the mutant
reciprocity bug. -/
def C3base : MultiFluidMF ℚ :=
  { red := mkMFRed id id (fun _ _ => 1) (fun _ _ => 1) (fun _ _ => 1) (fun _ _ => 1)
      [100, 200] [1, 2],
    EOSs := [],
    F := fun _ _ => 0,
    funcs := fun _ _ => fun _ _ => 0 }

/-- A concrete override document that changes `betaT(0,1)` to `3/2` and
`betaV(0,1)` to `5/4`. -/
def C3ovr : MutantOverride ℚ :=
  { betaT := fun _ _ => 3/2, gammaT := fun _ _ => 1, betaV := fun _ _ => 5/4,
    gammaV := fun _ _ => 1, Fij := fun _ _ => 0, dep := fun _ _ => fun _ _ => 0 }

/-- C3 failing-input evaluation: `build_multifluid_mutant` writes
`betaT(j,i) = 1/red.betaT(i,j)` from the BASE matrix instead of the reciprocal
of the just-written override, so the rebuilt reducing function violates
`betaT(i,j) = 1/betaT(j,i)` (and likewise for `betaV`) whenever the override
differs from the base value. -/
theorem mutant_betaT_reciprocity_violated :
    ((build_multifluid_mutant id id C3base C3ovr).red.betaT 0 1 = 3/2) ∧
    ((build_multifluid_mutant id id C3base C3ovr).red.betaT 1 0 = 1) ∧
    ((build_multifluid_mutant id id C3base C3ovr).red.betaT 0 1 ≠
      1 / (build_multifluid_mutant id id C3base C3ovr).red.betaT 1 0) ∧
    ((build_multifluid_mutant id id C3base C3ovr).red.betaV 0 1 = 5/4) ∧
    ((build_multifluid_mutant id id C3base C3ovr).red.betaV 1 0 = 1) ∧
    ((build_multifluid_mutant id id C3base C3ovr).red.betaV 0 1 ≠
      1 / (build_multifluid_mutant id id C3base C3ovr).red.betaV 1 0) := by
  refine ⟨?_, ?_, ?_, ?_, ?_, ?_⟩ <;>
    norm_num [build_multifluid_mutant, mkMFRed, C3base, C3ovr]

/-! ## C6: order-independence of binary-parameter resolution -/

/-- A one-record catalog storing the pair (A, B) with asymmetric
`betaT = 2`, `betaV = 3`. -/
def C6coll : List BIPEntry :=
  [{ Name1 := some "A", Name2 := some "B", betaT := some 2, gammaT := some 7,
     betaV := some 3, gammaV := some 9, F := some 0 }]

/-- C6 failing-input evaluation: resolving the lower-case queries
`("a","b")` and `("b","a")` against the catalog record `(A, B)` both succeed
(matching is case-insensitive, in either order) yet BOTH return
`betaT = 2, betaV = 3` un-flipped, because the backwards-order fix-up compares
the queried names to the stored names case-SENSITIVELY and therefore never
fires; the claim requires the reversed resolution to yield the reciprocals
`1/2` and `1/3`. -/
theorem binary_resolution_not_order_independent :
    (get_binary_interaction_double C6coll "a" "b" [] = Except.ok (2, 7, 3, 9)) ∧
    (get_binary_interaction_double C6coll "b" "a" [] = Except.ok (2, 7, 3, 9)) ∧
    ((2:ℚ) ≠ 1/2 ∧ (3:ℚ) ≠ 1/3) := by
  refine ⟨rfl, rfl, by norm_num⟩

/-! ## C4: construction-time validation of term records -/

/-- Whether a construction succeeded (no exception escaped). -/
def exceptOk {ε α : Type} : Except ε α → Bool
  | Except.ok _ => true
  | Except.error _ => false

@[simp] lemma exceptOk_ok {ε α : Type} (a : α) :
    exceptOk (Except.ok a : Except ε α) = true := rfl

@[simp] lemma exceptOk_error {ε α : Type} (e : ε) :
    exceptOk (Except.error e : Except ε α) = false := rfl

@[simp] lemma except_bind_ok {ε α β : Type} (a : α) (f : α → Except ε β) :
    (Except.ok a >>= f) = f a := rfl

@[simp] lemma except_bind_error {ε α β : Type} (e : ε) (f : α → Except ε β) :
    ((Except.error e : Except ε α) >>= f) = Except.error e := rfl

lemma castBack_replicate_zero (N : ℕ) :
    castBack (List.replicate N (0:ℚ)) = List.replicate N 0 := by
  simp [castBack, List.map_replicate, truncInt]

/-- The rational 1/2, written as an explicit reduced fraction. -/
def half : ℚ := ⟨1, 2, by decide, by decide⟩

/-- A pure-fluid Power record with MISMATCHED coefficient-array lengths
(`n` has 2 entries, `t` has 1). -/
def C4power_rec : TermRecord :=
  { type := some "ResidualHelmholtzPower", n := some [1, 2], t := some [3],
    d := some [4, 5] }

/-- A GERG-2004 composite record whose power sub-term `l` array holds the
non-integral value 1/2 (all seven checked arrays have matching length 1). -/
def C4gerg_rec : TermRecord :=
  { type := some "GERG-2004", n := some [1], t := some [2], d := some [3],
    eta := some [4], beta := some [5], gamma := some [6], epsilon := some [7],
    l := some [half], Npower := some 1 }

/-- An Exponential record whose `l` array holds the non-integral value 1/2
(all five checked arrays have matching length 1). -/
def C4exp_rec : TermRecord :=
  { type := some "ResidualHelmholtzExponential", n := some [1], t := some [2],
    d := some [3], g := some [4], l := some [half] }

/-- Counterexample to C4: (i) the pure-fluid Power builder accepts a record
whose required coefficient arrays have different lengths (it performs no
length validation at all); (ii) the composite (GERG) builder accepts a
non-integral value in the power sub-term's `l` array (it truncates silently);
(iii) the Exponential builder likewise accepts a non-integral `l`. -/
theorem term_validation_gaps :
    (jlen C4power_rec.t ≠ jlen C4power_rec.n ∧ exceptOk (build_power C4power_rec) = true) ∧
    (castBack (getArr C4gerg_rec.l) ≠ getArr C4gerg_rec.l ∧
      exceptOk (build_GERG2004 C4gerg_rec) = true) ∧
    (castBack (getArr C4exp_rec.l) ≠ getArr C4exp_rec.l ∧
      exceptOk (build_exponential C4exp_rec) = true) := by
  refine ⟨⟨by decide, by decide⟩, ⟨by decide, by decide⟩, ⟨by decide, by decide⟩⟩

/-- C4 amended: the validation each builder actually performs, as an exact
success characterisation. Length mismatches raise a construction error for the
departure Power form and for Lemmon2005, Exponential, Gaussian, GaoB,
NonAnalytic and the composite forms (over each form's enumerated field set,
which for composites does NOT include `l`); a non-integral entry in `l` raises
a construction error in the two Power builders and Lemmon2005 — but the
pure-fluid Power builder performs no length validation, and the Exponential
builder and the composite power sub-term accept non-integral `l` silently. -/
theorem term_construction_validation (term : TermRecord) :
    (exceptOk (build_power term) = true ↔
      (jIsEmpty term.l = true ∨ castBack (getArr term.l) = getArr term.l)) ∧
    (exceptOk (build_power_departure term) = true ↔
      (if jIsEmpty term.l = true then
        allSameLength [jlen term.n, jlen term.t, jlen term.d] = true
      else
        allSameLength [jlen term.n, jlen term.t, jlen term.d, jlen term.l] = true ∧
          castBack (getArr term.l) = getArr term.l)) ∧
    (exceptOk (build_Lemmon2005 term) = true ↔
      (allSameLength [jlen term.n, jlen term.t, jlen term.d, jlen term.m, jlen term.l] = true ∧
        castBack (getArr term.l) = getArr term.l)) ∧
    (exceptOk (build_exponential term) = true ↔
      allSameLength [jlen term.n, jlen term.t, jlen term.d, jlen term.g, jlen term.l] = true) ∧
    (exceptOk (build_gaussian term) = true ↔
      allSameLength [jlen term.n, jlen term.t, jlen term.d, jlen term.eta,
        jlen term.beta, jlen term.gamma, jlen term.epsilon] = true) ∧
    (exceptOk (build_GaoB term) = true ↔
      allSameLength [jlen term.n, jlen term.t, jlen term.d, jlen term.eta,
        jlen term.beta, jlen term.gamma, jlen term.epsilon, jlen term.b] = true) ∧
    (exceptOk (build_na term) = true ↔
      allSameLength [jlen term.n, jlen term.A, jlen term.B, jlen term.C,
        jlen term.D, jlen term.a, jlen term.b, jlen term.beta] = true) ∧
    (exceptOk (build_GERG2004 term) = true ↔
      (allSameLength [jlen term.n, jlen term.t, jlen term.d, jlen term.eta,
        jlen term.beta, jlen term.gamma, jlen term.epsilon] = true ∧
        term.Npower.isSome = true)) ∧
    (exceptOk (build_GaussianExponential term) = true ↔
      (allSameLength [jlen term.n, jlen term.t, jlen term.d, jlen term.eta,
        jlen term.beta, jlen term.gamma, jlen term.epsilon] = true ∧
        term.Npower.isSome = true)) := by
  refine ⟨?_, ?_, ?_, ?_, ?_, ?_, ?_, ?_, ?_⟩
  · by_cases hl : jIsEmpty term.l = true
    · simp [build_power, hl, castBack_replicate_zero]
    · by_cases hc : castBack (getArr term.l) = getArr term.l
      · simp [build_power, hl, hc]
      · simp [build_power, hl, hc]
  · by_cases hl : jIsEmpty term.l = true
    · by_cases h3 : allSameLength [jlen term.n, jlen term.t, jlen term.d] = true
      · simp [build_power_departure, hl, h3, castBack_replicate_zero]
      · simp [build_power_departure, hl, h3]
    · by_cases h4 : allSameLength [jlen term.n, jlen term.t, jlen term.d, jlen term.l] = true
      · by_cases hc : castBack (getArr term.l) = getArr term.l
        · simp [build_power_departure, hl, h4, hc]
        · simp [build_power_departure, hl, h4, hc]
      · simp [build_power_departure, hl, h4]
  · by_cases h5 : allSameLength [jlen term.n, jlen term.t, jlen term.d, jlen term.m, jlen term.l] = true
    · by_cases hc : castBack (getArr term.l) = getArr term.l
      · simp [build_Lemmon2005, h5, hc]
      · simp [build_Lemmon2005, h5, hc]
    · simp [build_Lemmon2005, h5]
  · by_cases h : allSameLength [jlen term.n, jlen term.t, jlen term.d, jlen term.g, jlen term.l] = true
    · simp [build_exponential, h]
    · simp [build_exponential, h]
  · by_cases h : allSameLength [jlen term.n, jlen term.t, jlen term.d, jlen term.eta,
        jlen term.beta, jlen term.gamma, jlen term.epsilon] = true
    · simp [build_gaussian, h]
    · simp [build_gaussian, h]
  · by_cases h : allSameLength [jlen term.n, jlen term.t, jlen term.d, jlen term.eta,
        jlen term.beta, jlen term.gamma, jlen term.epsilon, jlen term.b] = true
    · simp [build_GaoB, h]
    · simp [build_GaoB, h]
  · by_cases h : allSameLength [jlen term.n, jlen term.A, jlen term.B, jlen term.C,
        jlen term.D, jlen term.a, jlen term.b, jlen term.beta] = true
    · simp [build_na, h]
    · simp [build_na, h]
  · by_cases h7 : allSameLength [jlen term.n, jlen term.t, jlen term.d, jlen term.eta,
        jlen term.beta, jlen term.gamma, jlen term.epsilon] = true
    · cases hN : term.Npower with
      | none => simp [build_GERG2004, h7, hN, getInt]
      | some k => simp [build_GERG2004, h7, hN, getInt]
    · simp [build_GERG2004, h7]
  · by_cases h7 : allSameLength [jlen term.n, jlen term.t, jlen term.d, jlen term.eta,
        jlen term.beta, jlen term.gamma, jlen term.epsilon] = true
    · cases hN : term.Npower with
      | none => simp [build_GaussianExponential, h7, hN, getInt]
      | some k => simp [build_GaussianExponential, h7, hN, getInt]
    · simp [build_GaussianExponential, h7]

/-! ## C5 and C10: no-match error and estimation fallback -/

/-- If every record in the collection carries both names and matches the
(upper-cased) queried pair in neither order, the lookup loop runs off the end
and throws its fixed message. -/
lemma bip_lookup_no_match (comp0 comp1 : String) (collection : List BIPEntry)
    (h : ∀ el ∈ collection, ∃ s1 s2, el.Name1 = some s1 ∧ el.Name2 = some s2 ∧
      ¬(comp0 = toupper s1 ∧ comp1 = toupper s2) ∧
      ¬(comp0 = toupper s2 ∧ comp1 = toupper s1)) :
    bip_lookup comp0 comp1 collection = Except.error "Can\x27t match this binary pair" := by
  induction collection with
  | nil => rfl
  | cons el rest ih =>
    obtain ⟨s1, s2, h1, h2, hna, hnb⟩ := h el (List.mem_cons_self el rest)
    simp only [bip_lookup, h1, h2]
    rw [if_neg hna, if_neg hnb]
    exact ih (fun e he => h e (List.mem_cons_of_mem el he))

/-- C5 amended: when the estimation flag is absent and no catalog record
matches the pair (case-insensitively, in either order), resolution raises an
error — but with the fixed message "Can't match this binary pair", which does
not name the pair; when the `estimate` flag is present, resolution returns the
identity default `betaT = gammaT = betaV = gammaV = 1`, `F = 0` instead of
failing. -/
theorem resolution_no_match_and_estimate (collection : List BIPEntry)
    (comp0 comp1 : String) (flags : List String) :
    (flags.contains "estimate" = false →
      (∀ el ∈ collection, ∃ s1 s2, el.Name1 = some s1 ∧ el.Name2 = some s2 ∧
        ¬(toupper comp0 = toupper s1 ∧ toupper comp1 = toupper s2) ∧
        ¬(toupper comp0 = toupper s2 ∧ toupper comp1 = toupper s1)) →
      get_BIPdep collection comp0 comp1 flags =
        Except.error "Can\x27t match this binary pair") ∧
    (flags.contains "estimate" = true →
      get_BIPdep collection comp0 comp1 flags = Except.ok estimate_default) := by
  constructor
  · intro hf hno
    simp only [get_BIPdep, hf, Bool.false_eq_true, if_false]
    exact bip_lookup_no_match _ _ collection hno
  · intro hf
    simp only [get_BIPdep, hf]
    rw [if_pos trivial]

/-- Counterexample to C5 as stated: the error raised for the unmatched pair
(A, B) is literally identical to the error raised for the unmatched pair
(C, D) — a fixed message that does not identify the unmatched pair. -/
theorem resolution_error_does_not_name_pair :
    get_BIPdep [] "A" "B" [] = Except.error "Can\x27t match this binary pair" ∧
    get_BIPdep [] "C" "D" [] = Except.error "Can\x27t match this binary pair" :=
  ⟨rfl, rfl⟩

/-- A catalog record for the pair (C, D), not matching (A, B). -/
def C5rec : BIPEntry :=
  { Name1 := some "C", Name2 := some "D", betaT := some 1, gammaT := some 1,
    betaV := some 1, gammaV := some 1, F := some 0 }

/-- Witness for C5: against a non-empty catalog whose only record is the pair
(C, D), resolving (A, B) without flags raises the fixed error, and resolving
it with the `estimate` flag returns the identity default. -/
theorem resolution_no_match_and_estimate_witness :
    get_BIPdep [C5rec] "A" "B" [] = Except.error "Can\x27t match this binary pair" ∧
    get_BIPdep [C5rec] "A" "B" ["estimate"] = Except.ok estimate_default :=
  ⟨(resolution_no_match_and_estimate [C5rec] "A" "B" []).1 rfl
    (by
      intro el hel
      rw [List.mem_singleton] at hel
      subst hel
      exact ⟨"C", "D", rfl, rfl, by decide, by decide⟩),
   (resolution_no_match_and_estimate [C5rec] "A" "B" ["estimate"]).2 rfl⟩

/-- C10: whenever the flags object contains the key `estimate`, `get_BIPdep`
returns the identity default unconditionally, without consulting the catalog. -/
theorem estimate_flag_bypasses_catalog (collection : List BIPEntry)
    (comp0 comp1 : String) (flags : List String)
    (h : flags.contains "estimate" = true) :
    get_BIPdep collection comp0 comp1 flags = Except.ok estimate_default := by
  simp only [get_BIPdep, h]
  rw [if_pos trivial]

/-- A catalog record exactly matching the pair (A, B), with parameters far
from the identity default. -/
def C10rec : BIPEntry :=
  { Name1 := some "A", Name2 := some "B", betaT := some 7, gammaT := some 2,
    betaV := some 3, gammaV := some 4, F := some 5, function := some "XX" }

/-- Witness for C10: with the `estimate` flag the default is returned even
though a record matching (A, B) exists in the catalog (and is returned when
the flag is absent). -/
theorem estimate_flag_bypasses_catalog_witness :
    get_BIPdep [C10rec] "A" "B" ["estimate"] = Except.ok estimate_default ∧
    get_BIPdep [C10rec] "A" "B" [] = Except.ok C10rec ∧
    estimate_default ≠ C10rec :=
  ⟨estimate_flag_bypasses_catalog [C10rec] "A" "B" ["estimate"] rfl, rfl, by decide⟩

/-! ## C7: pairs without a departure-function name -/

/-- C7 amended: for an off-diagonal pair whose resolved record carries no
departure-function name (absent or empty), resolution is not an error: both
orders of the pair's departure-matrix entry are populated with the Null term;
the pair's interaction factor, however, is whatever the record's `F` field
holds (not forced to 0). -/
theorem departure_absent_name_gives_null (depcollection : List TermRecord)
    (BIPcollection : List BIPEntry) (components : List String)
    (flags : List String) (i j : ℕ) (el : BIPEntry) (q : ℚ)
    (hij : i ≠ j)
    (hel : get_BIPdep BIPcollection (components.getD (min i j) "")
      (components.getD (max i j) "") flags = Except.ok el)
    (hfn : el.function = none ∨ el.function = some "")
    (hF : el.F = some q) :
    departure_matrix_entry depcollection BIPcollection components flags i j =
      Except.ok [EOSTermQ.null] ∧
    departure_matrix_entry depcollection BIPcollection components flags j i =
      Except.ok [EOSTermQ.null] ∧
    F_matrix_entry BIPcollection components flags i j = Except.ok q ∧
    F_matrix_entry BIPcollection components flags j i = Except.ok q := by
  have hel' : get_BIPdep BIPcollection (components.getD (min j i) "")
      (components.getD (max j i) "") flags = Except.ok el := by
    rwa [min_comm j i, max_comm j i]
  have hname : (match el.function with | some s => s | none => "") = "" := by
    rcases hfn with h | h <;> rw [h]
  have hje : el.jempty = false := by
    simp only [BIPEntry.jempty, decide_eq_false_iff_not]
    intro h
    rw [h] at hF
    simp at hF
  refine ⟨?_, ?_, ?_, ?_⟩
  · simp only [departure_matrix_entry, if_neg hij, hel, except_bind_ok, hname]
    simp
  · simp only [departure_matrix_entry, if_neg (Ne.symm hij), hel', except_bind_ok, hname]
    simp
  · simp only [F_matrix_entry, if_neg hij, hel, except_bind_ok, hje,
      Bool.false_eq_true, if_false, hF, getNum]
  · simp only [F_matrix_entry, if_neg (Ne.symm hij), hel', except_bind_ok, hje,
      Bool.false_eq_true, if_false, hF, getNum]

/-- A catalog record for the pair (A, B) with no departure-function name and a
NON-zero interaction factor. -/
def C7rec : BIPEntry :=
  { Name1 := some "A", Name2 := some "B", betaT := some 1, gammaT := some 1,
    betaV := some 1, gammaV := some 1, F := some 2 }

/-- Counterexample to C7 as stated: with a record for (A, B) that carries no
departure-function name but `F = 2`, the departure matrix is populated with
the Null term in both orders (resolution does not fail), yet the interaction
factor of the pair is 2, not 0 as the claim requires. -/
theorem departure_absent_name_F_not_zero :
    get_departure_function_matrix [] [C7rec] ["A", "B"] [] =
      Except.ok [[[], [EOSTermQ.null]], [[EOSTermQ.null], []]] ∧
    get_F_matrix [C7rec] ["A", "B"] [] = Except.ok [[0, 2], [2, 0]] ∧
    (2:ℚ) ≠ 0 :=
  ⟨rfl, rfl, by norm_num⟩

/-- Witness for C7 (amended): applying the entry characterisation to the
concrete catalog with record (A, B), `F = 2`, no departure name. -/
theorem departure_absent_name_gives_null_witness :
    departure_matrix_entry [] [C7rec] ["A", "B"] [] 0 1 = Except.ok [EOSTermQ.null] ∧
    departure_matrix_entry [] [C7rec] ["A", "B"] [] 1 0 = Except.ok [EOSTermQ.null] ∧
    F_matrix_entry [C7rec] ["A", "B"] [] 0 1 = Except.ok 2 ∧
    F_matrix_entry [C7rec] ["A", "B"] [] 1 0 = Except.ok 2 :=
  departure_absent_name_gives_null [] [C7rec] ["A", "B"] [] 0 1 C7rec 2
    (by decide) rfl (Or.inl rfl) rfl

end Teqp
